import Mathlib

/-!
Shallow embedding of the bouncing-ball WebTransport server
(`server/server.py`) and proofs about its specification claims.

Conventions of the embedding:
* Python integers are `Int` / `Nat`, Python numbers arriving via JSON are `Rat`,
  and the one real-valued computation (`math.hypot`) is valued in `Real`.
* Python strings are modelled as `List Char` (a Python `str` is a sequence of
  code points); the per-method string operations (`split`, `startswith`,
  `lower`, `join`, slicing) are given structurally recursive definitions with
  Python semantics so that concrete inputs evaluate inside the kernel.
* Fallible Python code is modelled explicitly: a handler step returns the
  resulting state, the emitted actions, and the exception escaping the
  handler, if any.  Mutations that happen before an exception is raised are
  kept (as in Python).
* `json.loads` is external library code; handlers are parameterised by an
  abstract `parse` function from bytes to an optional JSON value, `none`
  exactly when `json.loads` (or the UTF-8 decode) raises.  `json.loads` can
  succeed with a non-object value (null, a bool, a number, a string, an
  array); `.get` on such a value raises `AttributeError`, which the handlers
  model explicitly.
-/

/-- A JSON value as produced by `json.loads`, restricted to the shapes the
server inspects.  Composite members (candidate objects and the like) are only
ever passed through, never inspected. -/
inductive JVal where
  | jnull
  | jbool (b : Bool)
  | jnum (q : ℚ)
  | jstr (s : String)
  | jarr (elems : List JVal)
  | jobj (fields : List (String × JVal))
  deriving Repr

/-- Python exceptions that can escape the handlers modelled here. -/
inductive PyErr where
  | keyError (k : String)
  | typeError
  | indexError
  | attributeError
  deriving Repr, DecidableEq

/-- `d.get(k)` on a Python dict modelled as an association list. -/
def pyGet (d : List (String × JVal)) (k : String) : Option JVal :=
  (d.find? (fun p => p.1 == k)).map (fun p => p.2)

/-- Python `value == "lit"` where `value` came from `d.get(k)`: true exactly
when the value is present, is a string, and equals the literal. -/
def strEq (v : Option JVal) (lit : String) : Bool :=
  match v with
  | some (JVal.jstr s) => s == lit
  | _ => false

/-- Coercion of a JSON value appearing in `x_gt - x_client`: numbers and
booleans (Python `bool` is an `int`) are numeric; everything else, including
an absent field (`None`), raises `TypeError`. -/
def asNum (v : Option JVal) : Except PyErr ℚ :=
  match v with
  | some (JVal.jnum q) => Except.ok q
  | some (JVal.jbool b) => Except.ok (if b then 1 else 0)
  | _ => Except.error PyErr.typeError

/-- Whether a JSON value is an object, i.e. a Python dict: the only kind of
value on which `.get` does not raise `AttributeError`. -/
def JVal.isObj : JVal → Bool
  | JVal.jobj _ => true
  | _ => false

/-! ## Frames (`numpy` arrays as drawn by the generator) -/

/-- A `numpy` BGR image: height, width and a pixel map (channel 0 = blue,
1 = green, 2 = red). -/
structure NdArray where
  h : ℤ
  w : ℤ
  pix : ℤ → ℤ → Fin 3 → ℕ

/-- `np.zeros((h, w, 3), dtype=np.uint8)`. -/
def npZeros (h w : ℤ) : NdArray :=
  { h := h, w := w, pix := fun _ _ _ => 0 }

/-- `cv2.circle(frame, (x, y), radius, (0, 255, 0), -1)`: a filled green disk,
modelled as setting every pixel within `radius` of the centre to BGR
`(0, 255, 0)`. -/
def drawCircle (a : NdArray) (cx cy r : ℤ) : NdArray :=
  { h := a.h, w := a.w,
    pix := fun i j ch =>
      if (j - cx) ^ 2 + (i - cy) ^ 2 ≤ r ^ 2 then
        (if ch.val = 1 then 255 else 0)
      else a.pix i j ch }

/-! ## `BouncingBallGenerator` -/

/-- The observable state of a `BouncingBallGenerator` thread: construction
parameters, kinematic state, the published frame `_frame` (absent until the
first tick publishes), the published position `_pos` (an attribute that does
not exist until the first tick), and the `_running` flag. -/
structure Gen where
  width : ℤ
  height : ℤ
  fps : ℤ
  x : ℤ
  y : ℤ
  vx : ℤ
  vy : ℤ
  radius : ℤ
  frame : Option NdArray
  pos : Option (ℤ × ℤ)
  running : Bool

/-- `BouncingBallGenerator.__init__` (with `save_frames=False`). -/
def Gen.init (width height fps : ℤ) : Gen :=
  { width := width, height := height, fps := fps,
    x := Int.fdiv width 2, y := Int.fdiv height 2,
    vx := 5, vy := 3, radius := 20,
    frame := none, pos := none, running := true }

/-- One iteration of `BouncingBallGenerator.run`: render the frame at the
current position, advance the position by the velocity, reflect each velocity
component when the new coordinate reaches a boundary band, then publish the
frame and the new position under the lock. -/
def Gen.tick (g : Gen) : Gen :=
  let fr := drawCircle (npZeros g.height g.width) g.x g.y g.radius
  let x := g.x + g.vx
  let y := g.y + g.vy
  let vx := if x ≤ g.radius ∨ g.width - g.radius ≤ x then -g.vx else g.vx
  let vy := if y ≤ g.radius ∨ g.height - g.radius ≤ y then -g.vy else g.vy
  { g with x := x, y := y, vx := vx, vy := vy,
           frame := some fr, pos := some (x, y) }

/-- `BouncingBallGenerator.get_frame`: the latest published frame, or `None`
if no tick has published yet (the returned copy is observationally the frame
itself). -/
def Gen.get_frame (g : Gen) : Option NdArray :=
  g.frame

/-- `BouncingBallGenerator.get_position`:
`getattr(self, "_pos", (self.x, self.y))`. -/
def Gen.get_position (g : Gen) : ℤ × ℤ :=
  g.pos.getD (g.x, g.y)

/-! ## `BouncingBallMediaTrack._Track.recv` -/

/-- An `av.VideoFrame` as assembled by `recv`: pixel data plus presentation
timestamp and time base. -/
structure AVFrame where
  data : NdArray
  pts : ℤ
  time_base : ℚ

/-- `_Track.recv`, with the `pts` and `time_base` obtained from the media
engine clock (`next_timestamp()`) passed in: pull the latest generator frame,
substituting a black frame of the generator dimensions when none is available
yet, and stamp it. -/
def Track.recv (g : Gen) (pts : ℤ) (time_base : ℚ) : AVFrame :=
  match Gen.get_frame g with
  | none => { data := npZeros g.height g.width, pts := pts, time_base := time_base }
  | some f => { data := f, pts := pts, time_base := time_base }

/-! ## `SessionHandler` state -/

/-- State owned by one `SessionHandler`: the per-stream partial buffers, the
current peer connection (identified by a creation counter so that distinct
constructions are distinguishable), how many peer connections were ever
constructed, and the generator. -/
structure SessionState where
  session_id : ℕ
  buffers : List (ℕ × List ℕ)
  pc : Option ℕ
  pcCount : ℕ
  generator : Option Gen

/-- `SessionHandler.__init__`: empty buffers, an eagerly constructed
`RTCPeerConnection` (creation number 0), and no generator yet. -/
def SessionHandler.init (session_id : ℕ) : SessionState :=
  { session_id := session_id, buffers := [], pc := some 0, pcCount := 1,
    generator := none }

/-- Lookup in the `defaultdict(bytearray)` buffer map; a missing key reads as
the empty byte string. -/
def bufGet (bs : List (ℕ × List ℕ)) (sid : ℕ) : List ℕ :=
  ((bs.find? (fun p => p.1 == sid)).map (fun p => p.2)).getD []

/-- Store a buffer under a stream id (in-place update, insertion at the end
for a fresh key, matching dict semantics). -/
def bufSet (bs : List (ℕ × List ℕ)) (sid : ℕ) (v : List ℕ) : List (ℕ × List ℕ) :=
  if bs.any (fun p => p.1 == sid) then
    bs.map (fun p => if p.1 == sid then (sid, v) else p)
  else bs ++ [(sid, v)]

/-- `pop` / `del` of a stream id. -/
def bufDel (bs : List (ℕ × List ℕ)) (sid : ℕ) : List (ℕ × List ℕ) :=
  bs.filter (fun p => !(p.1 == sid))

/-- The HTTP/3 events `WebTransportProtocol` forwards to an established
session handler. -/
inductive H3Event where
  | datagramReceived (data : List ℕ)
  | wtStreamData (streamId : ℕ) (data : List ℕ) (streamEnded : Bool)
  | streamReset (streamId : ℕ)

/-- The outbound message sent by the coords branch, recording the two
computed differences; its serialized form is
`(type, error)` with field `e` carrying `math.hypot(dx, dy)`. -/
inductive OutMsg where
  | errorMsg (dx dy : ℚ)

/-- The numeric value of the `e` field of an emitted error datagram:
`math.hypot(dx, dy)`. -/
noncomputable def OutMsg.errValue : OutMsg → ℝ
  | OutMsg.errorMsg dx dy => Real.sqrt ((dx : ℝ) ^ 2 + (dy : ℝ) ^ 2)

/-- Externally visible actions of one `h3_event_received` call. -/
inductive OutAct where
  | sendDatagram (m : OutMsg)
  | scheduleAddIce (pcId : ℕ) (candidate : JVal)
  | scheduleOffer (sdp : JVal)

/-- Result of one `h3_event_received` call: the new handler state, the
actions performed before any exception, and the exception escaping the call,
if any.  Mutations made before the exception is raised persist, as in
Python. -/
structure StepResult where
  state : SessionState
  out : List OutAct
  err : Option PyErr

/-- The dispatch performed on a completed stream payload (after the buffer
has been popped): parse it; a parse result that is not an object raises
`AttributeError` at `msg.get("type")`; on a well-formed `offer` object
schedule `_handle_offer` with the `sdp` field (`msg["sdp"]` raises `KeyError`
when absent). -/
def endDispatch (parse : List ℕ → Option JVal)
    (bytes : List ℕ) : List OutAct × Option PyErr :=
  match parse bytes with
  | none => ([], none)
  | some (JVal.jobj m) =>
    if strEq (pyGet m "type") "offer" then
      match pyGet m "sdp" with
      | none => ([], some (PyErr.keyError "sdp"))
      | some v => ([OutAct.scheduleOffer v], none)
    else ([], none)
  | some _ => ([], some PyErr.attributeError)

/-- `SessionHandler.h3_event_received`, parameterised by the JSON parse
function (`json.loads` over UTF-8 decode, the exceptions of both folded into
`none`); a successful parse yielding a non-object raises `AttributeError` at
`msg.get("type")`. -/
def hstep (parse : List ℕ → Option JVal)
    (s : SessionState) (ev : H3Event) : StepResult :=
  match ev with
  | H3Event.datagramReceived d =>
    match parse d with
    | none => ⟨s, [], none⟩
    | some (JVal.jobj m) =>
      let t := pyGet m "type"
      if strEq t "ice-candidate" then
        match pyGet m "candidate" with
        | none => ⟨s, [], some (PyErr.keyError "candidate")⟩
        | some c =>
          match s.pc with
          | none => ⟨s, [], some PyErr.attributeError⟩
          | some pcId => ⟨s, [OutAct.scheduleAddIce pcId c], none⟩
      else if strEq t "coords" then
        match s.generator with
        | none => ⟨s, [], none⟩
        | some g =>
          match asNum (pyGet m "x") with
          | Except.error e => ⟨s, [], some e⟩
          | Except.ok qx =>
            match asNum (pyGet m "y") with
            | Except.error e => ⟨s, [], some e⟩
            | Except.ok qy =>
              let p := Gen.get_position g
              ⟨s, [OutAct.sendDatagram
                    (OutMsg.errorMsg ((p.1 : ℚ) - qx) ((p.2 : ℚ) - qy))], none⟩
      else ⟨s, [], none⟩
    | some _ => ⟨s, [], some PyErr.attributeError⟩
  | H3Event.wtStreamData sid d ended =>
    let combined := bufGet s.buffers sid ++ d
    if ended then
      let s2 := { s with buffers := bufDel s.buffers sid }
      let r := endDispatch parse combined
      ⟨s2, r.1, r.2⟩
    else
      ⟨{ s with buffers := bufSet s.buffers sid combined }, [], none⟩
  | H3Event.streamReset sid =>
    ⟨{ s with buffers := bufDel s.buffers sid }, [], none⟩

/-- The state mutations of `SessionHandler._handle_offer` up to the answer
exchange: a freshly constructed and started generator, and a second
`RTCPeerConnection` replacing the eagerly constructed one. -/
def handleOffer (s : SessionState) : SessionState :=
  { s with generator := some (Gen.init 640 480 30),
           pc := some s.pcCount, pcCount := s.pcCount + 1 }

/-- The externally visible actions of `SessionHandler._cleanup`. -/
inductive CleanupAct where
  | stopJoinGenerator
  | closePc
  deriving Repr, DecidableEq

/-- `SessionHandler._cleanup`: stop, join and clear the generator when one is
present; close and clear the peer connection when one is present. -/
def cleanup (s : SessionState) : SessionState × List CleanupAct :=
  ({ s with generator := none, pc := none },
   (if s.generator.isSome then [CleanupAct.stopJoinGenerator] else []) ++
   (if s.pc.isSome then [CleanupAct.closePc] else []))

/-! ## `_prefer_h264` (SDP codec preference)

The source splits the SDP on `"\r\n"` at entry and joins the rewritten lines
with `"\r\n"` at exit; the embedding works on the list of lines, with each
line a Python string, i.e. a list of code points. -/

/-- A Python string: a sequence of code points. -/
abbrev PyStr := List Char

/-- `s.split(sep)` for a one-character separator, with Python semantics:
no collapsing of empty fields, `"".split(sep) == [""]`. -/
def splitOnChar (sep : Char) : PyStr → List PyStr
  | [] => [[]]
  | a :: rest =>
    let r := splitOnChar sep rest
    if a = sep then [] :: r
    else (a :: r.headD []) :: r.tail

/-- `s.startswith(pat)` (first argument is the pattern). -/
def hasPfx : PyStr → PyStr → Bool
  | [], _ => true
  | _ :: _, [] => false
  | p :: ps, c :: cs => p == c && hasPfx ps cs

/-- The literal `"a=rtpmap:"`. -/
def rtpmapPfx : PyStr := "a=rtpmap:".toList

/-- The literal `"m=video"`. -/
def mVideoPfx : PyStr := "m=video".toList

/-- The literal `"h264"`. -/
def h264Str : PyStr := "h264".toList

/-- Python dict assignment `d[k] = v`: update in place when the key exists,
otherwise insert at the end. -/
def dictSet (d : List (PyStr × PyStr)) (k v : PyStr) : List (PyStr × PyStr) :=
  if d.any (fun p => p.1 == k) then
    d.map (fun p => if p.1 == k then (k, v) else p)
  else d ++ [(k, v)]

/-- The first loop of `_prefer_h264`: build the payload-type → codec map from
the `a=rtpmap:` lines.  `parts[1]` raises `IndexError` when the line has no
space after the prefix. -/
def rtpmapScan (acc : List (PyStr × PyStr)) :
    List PyStr → Except PyErr (List (PyStr × PyStr))
  | [] => Except.ok acc
  | line :: rest =>
    if hasPfx rtpmapPfx line then
      let parts := splitOnChar ' ' (line.drop 9)
      match parts[1]? with
      | none => Except.error PyErr.indexError
      | some p1 =>
        rtpmapScan
          (dictSet acc (parts.headD [])
            (((splitOnChar '/' p1).headD []).map Char.toLower)) rest
    else rtpmapScan acc rest

/-- The h264 payload types, in dict order (`h264_pts`). -/
def h264pts (d : List (PyStr × PyStr)) : List PyStr :=
  (d.filter (fun kv => kv.2 == h264Str)).map (fun kv => kv.1)

/-- The second loop of `_prefer_h264`, for one line: rewrite an `m=video`
line when a chosen payload type exists (Python truthiness: `None` and the
empty string are falsy) and occurs among its payload entries. -/
def rewriteLine (chosen : Option PyStr) (line : PyStr) : PyStr :=
  if hasPfx mVideoPfx line then
    let parts := splitOnChar ' ' line
    let pre := parts.take 3
    let pts := parts.drop 3
    match chosen with
    | some c =>
      if c ≠ [] ∧ c ∈ pts then
        List.intercalate [' '] (pre ++ c :: pts.filter (fun q => q ≠ c))
      else line
    | none => line
  else line

/-- `SessionHandler._prefer_h264` on the list of lines of the SDP. -/
def prefer_h264 (lines : List PyStr) : Except PyErr (List PyStr) :=
  match rtpmapScan [] lines with
  | Except.error e => Except.error e
  | Except.ok ptc => Except.ok (lines.map (rewriteLine (h264pts ptc).head?))

/-- The per-line transformation in the words of the claim: on each `m=video`
line whose payload list contains the chosen h264 payload type, that payload
type is moved to the front of the payload list with the relative order of the
other payload types preserved; every other line is unchanged.  (Claim-side
definition, used to compare the source function against the claim.) -/
def claimVideoLine (c : PyStr) (line : PyStr) : PyStr :=
  if hasPfx mVideoPfx line = true ∧ c ∈ (splitOnChar ' ' line).drop 3 then
    List.intercalate [' ']
      ((splitOnChar ' ' line).take 3 ++
        c :: ((splitOnChar ' ' line).drop 3).filter (fun q => q ≠ c))
  else line

/-- Well-formedness of one SDP line: an `a=rtpmap:` line carries at least two
space-separated fields after the prefix, the first nonempty. -/
def rtpmapWFb (line : PyStr) : Bool :=
  !(hasPfx rtpmapPfx line) ||
    (decide (2 ≤ (splitOnChar ' ' (line.drop 9)).length) &&
     !((splitOnChar ' ' (line.drop 9)).headD []).isEmpty)

/-- Well-formedness of an SDP, line by line. -/
def linesWF (lines : List PyStr) : Bool := lines.all rtpmapWFb

/-! ## `WebTransportProtocol._h3_event_received` (connection-upgrade) -/

/-- The response sent by `_send_response`: header list and whether the stream
is ended. -/
structure H3Response where
  headers : List (String × String)
  endStream : Bool
  deriving Repr, DecidableEq

/-- `WebTransportProtocol._send_response`: a `:status` header, plus the
WebTransport draft header exactly when the status is 200. -/
def send_response (status : ℕ) (endStream : Bool) : H3Response :=
  { headers := [(":status", toString status)] ++
      (if status == 200 then [("sec-webtransport-http3-draft", "draft02")] else []),
    endStream := endStream }

/-- Lookup in the dict built from the received header list (later duplicates
win, as in the Python dict comprehension). -/
def headersDictGet (hs : List (String × String)) (k : String) : Option String :=
  ((hs.reverse).find? (fun p => p.1 == k)).map (fun p => p.2)

/-- The `HeadersReceived` branch of `WebTransportProtocol._h3_event_received`:
on `CONNECT` + `webtransport` + `/webtransport` construct a `SessionHandler`
and answer 200, otherwise answer 404 with the stream ended and construct
nothing. -/
def handleHeadersReceived (streamId : ℕ) (hs : List (String × String)) :
    Option SessionState × H3Response :=
  if headersDictGet hs ":method" == some "CONNECT" &&
      headersDictGet hs ":protocol" == some "webtransport" &&
      headersDictGet hs ":path" == some "/webtransport" then
    (some (SessionHandler.init streamId), send_response 200 false)
  else
    (none, send_response 404 true)

/-! ## Concrete instances used by witnesses and counterexamples -/

/-- UTF-8 bytes of the JSON text of an ice-candidate datagram missing its
`candidate` field. -/
def iceNoCandBytes : List ℕ :=
  [123, 34, 116, 121, 112, 101, 34, 58, 34, 105, 99, 101, 45, 99, 97, 110,
   100, 105, 100, 97, 116, 101, 34, 125]

/-- UTF-8 bytes of the JSON text of a coords datagram missing its `x` and `y`
fields. -/
def coordsNoXBytes : List ℕ :=
  [123, 34, 116, 121, 112, 101, 34, 58, 34, 99, 111, 111, 114, 100, 115, 34,
   125]

/-- UTF-8 bytes of the JSON text of a coords datagram reporting x = 7,
y = 6. -/
def coords76Bytes : List ℕ :=
  [123, 34, 116, 121, 112, 101, 34, 58, 34, 99, 111, 111, 114, 100, 115, 34,
   44, 34, 120, 34, 58, 55, 44, 34, 121, 34, 58, 54, 125]

/-- UTF-8 bytes of the JSON text of an offer message whose sdp field is the
string X. -/
def offerXBytes : List ℕ :=
  [123, 34, 116, 121, 112, 101, 34, 58, 34, 111, 102, 102, 101, 114, 34, 44,
   34, 115, 100, 112, 34, 58, 34, 88, 34, 125]

/-- UTF-8 bytes of the JSON text `null`, which parses successfully to a
non-object value. -/
def nullBytes : List ℕ := [110, 117, 108, 108]

/-- A concrete stand-in for `json.loads` on the byte strings of the concrete
instances below (each mapped to its actual JSON parse); all other byte
strings are treated as unparseable. -/
def parseDemo (b : List ℕ) : Option JVal :=
  if b = iceNoCandBytes then
    some (JVal.jobj [("type", JVal.jstr "ice-candidate")])
  else if b = coordsNoXBytes then
    some (JVal.jobj [("type", JVal.jstr "coords")])
  else if b = coords76Bytes then
    some (JVal.jobj
      [("type", JVal.jstr "coords"), ("x", JVal.jnum 7), ("y", JVal.jnum 6)])
  else if b = offerXBytes then
    some (JVal.jobj [("type", JVal.jstr "offer"), ("sdp", JVal.jstr "X")])
  else if b = nullBytes then some JVal.jnull
  else none

/-- A generator state whose last committed position is (10, 10). -/
def genTen : Gen := { Gen.init 640 480 30 with pos := some (10, 10) }

/-- A session state with an active generator at true position (10, 10). -/
def sGen : SessionState := { SessionHandler.init 0 with generator := some genTen }

/-- A freshly constructed session state. -/
def sPlain : SessionState := SessionHandler.init 0

/-- The example SDP of the spec, as lines: an `m=video` line with payloads
96 97, payload 96 mapped to VP8 and payload 97 mapped to H264. -/
def sdpEx : List PyStr :=
  ["v=0".toList, "m=video 9 UDP/TLS/RTP/SAVPF 96 97".toList,
   "a=rtpmap:96 VP8/90000".toList, "a=rtpmap:97 H264/90000".toList]

/-- The expected rewriting of `sdpEx`: payload 97 moved to the front, all
other lines unchanged. -/
def sdpExOut : List PyStr :=
  ["v=0".toList, "m=video 9 UDP/TLS/RTP/SAVPF 97 96".toList,
   "a=rtpmap:96 VP8/90000".toList, "a=rtpmap:97 H264/90000".toList]

/-- An SDP with a malformed rtpmap line (no space after the prefix) and no
h264 mapping. -/
def sdpBad : List PyStr := ["v=0".toList, "a=rtpmap:96".toList]

/-- A generator state about to hit the right boundary: one tick ahead of the
default state in x only. -/
def g8w : Gen := { Gen.init 640 480 30 with x := 615 }

/-- Inductive invariant of the kinematics of the default 640 by 480
generator: fixed parameters, velocities of magnitude 5 and 3, coordinates on
the lattice reached from the centre, positions inside the reflection band,
and on the extreme lattice points the velocity already points inward. -/
def Inv8 (g : Gen) : Prop :=
  g.width = 640 ∧ g.height = 480 ∧ g.radius = 20 ∧
  (g.vx = 5 ∨ g.vx = -5) ∧ (g.vy = 3 ∨ g.vy = -3) ∧
  (5 : ℤ) ∣ g.x ∧ (3 : ℤ) ∣ g.y ∧
  20 ≤ g.x ∧ g.x ≤ 620 ∧ 18 ≤ g.y ∧ g.y ≤ 462 ∧
  (g.x = 20 → g.vx = 5) ∧ (g.x = 620 → g.vx = -5) ∧
  (g.y = 18 → g.vy = 3) ∧ (g.y = 462 → g.vy = -3)

/-! # Theorems -/

/-- The x coordinate after one tick. -/
theorem tick_x (g : Gen) : (Gen.tick g).x = g.x + g.vx := rfl

/-- The y coordinate after one tick. -/
theorem tick_y (g : Gen) : (Gen.tick g).y = g.y + g.vy := rfl

/-- The horizontal velocity after one tick. -/
theorem tick_vx (g : Gen) :
    (Gen.tick g).vx =
      if g.x + g.vx ≤ g.radius ∨ g.width - g.radius ≤ g.x + g.vx then -g.vx
      else g.vx := rfl

/-- The vertical velocity after one tick. -/
theorem tick_vy (g : Gen) :
    (Gen.tick g).vy =
      if g.y + g.vy ≤ g.radius ∨ g.height - g.radius ≤ g.y + g.vy then -g.vy
      else g.vy := rfl

/-- One tick does not change the width. -/
theorem tick_w (g : Gen) : (Gen.tick g).width = g.width := rfl

/-- One tick does not change the height. -/
theorem tick_h (g : Gen) : (Gen.tick g).height = g.height := rfl

/-- One tick does not change the radius. -/
theorem tick_r (g : Gen) : (Gen.tick g).radius = g.radius := rfl

/-- The invariant holds for the freshly constructed default generator. -/
theorem Inv8.init : Inv8 (Gen.init 640 480 30) := by
  have hx : (Gen.init 640 480 30).x = 320 := rfl
  have hy : (Gen.init 640 480 30).y = 240 := rfl
  have hvx : (Gen.init 640 480 30).vx = 5 := rfl
  have hvy : (Gen.init 640 480 30).vy = 3 := rfl
  have hw : (Gen.init 640 480 30).width = 640 := rfl
  have hh : (Gen.init 640 480 30).height = 480 := rfl
  have hr : (Gen.init 640 480 30).radius = 20 := rfl
  unfold Inv8
  rw [hx, hy, hvx, hvy, hw, hh, hr]
  omega

/-- The invariant is preserved by one tick. -/
theorem Inv8.tick {g : Gen} (h : Inv8 g) : Inv8 (Gen.tick g) := by
  obtain ⟨hw, hh, hr, hvx, hvy, hdx, hdy, hx1, hx2, hy1, hy2, hbx1, hbx2, hby1, hby2⟩ := h
  unfold Inv8
  rw [tick_x, tick_y, tick_vx, tick_vy, tick_w, tick_h, tick_r, hw, hh, hr]
  split_ifs <;> omega

/-- The invariant holds after any number of ticks from the default initial
state. -/
theorem Inv8.iterate (n : ℕ) : Inv8 (Gen.tick^[n] (Gen.init 640 480 30)) := by
  induction n with
  | zero => simpa using Inv8.init
  | succ n ih =>
    rw [Function.iterate_succ_apply']
    exact ih.tick

/-- C7: invoking session cleanup twice in succession produces no error and
leaves the session in the same terminal state as invoking it once (generator
stopped, joined and cleared; peer connection closed and cleared); the second
invocation performs no further action. -/
theorem cleanup_idempotent (s : SessionState) :
    cleanup (cleanup s).1 = ((cleanup s).1, []) ∧
    (cleanup s).1.generator = none ∧ (cleanup s).1.pc = none := by
  simp [cleanup]

/-- C3: evaluated at construction, a `SessionHandler` already owns a live
peer-connection handle (creation number 0) while no Periodic Signal Source
exists; the first offer then constructs the source together with a second
peer connection (creation number 1), not the first. -/
theorem eager_pc_at_init (sid : ℕ) :
    (SessionHandler.init sid).pc = some 0 ∧
    (SessionHandler.init sid).generator = none ∧
    (handleOffer (SessionHandler.init sid)).pc = some 1 ∧
    (handleOffer (SessionHandler.init sid)).pcCount = 2 ∧
    (handleOffer (SessionHandler.init sid)).generator.isSome = true := by
  simp [SessionHandler.init, handleOffer]

/-- C9: on each pull, if no generator frame is committed yet the returned
frame is an all-zero blank frame of the configured width and height,
otherwise it carries the latest snapshot; in both cases the returned frame
carries the supplied presentation timestamp and time base. -/
theorem track_recv_contract (g : Gen) (pts : ℤ) (tb : ℚ) :
    (Gen.get_frame g = none →
      Track.recv g pts tb =
        { data := npZeros g.height g.width, pts := pts, time_base := tb } ∧
      (∀ i j c, (Track.recv g pts tb).data.pix i j c = 0) ∧
      (Track.recv g pts tb).data.h = g.height ∧
      (Track.recv g pts tb).data.w = g.width) ∧
    (∀ f, Gen.get_frame g = some f →
      Track.recv g pts tb = { data := f, pts := pts, time_base := tb }) ∧
    (Track.recv g pts tb).pts = pts ∧ (Track.recv g pts tb).time_base = tb := by
  refine ⟨?_, ?_, ?_⟩
  · intro h
    simp [Track.recv, h, npZeros]
  · intro f hf
    simp [Track.recv, hf]
  · cases h : Gen.get_frame g <;> simp [Track.recv, h]

/-- Witness for the C9 theorem: a freshly constructed generator has no
committed frame, so the pulled frame is the stamped blank frame. -/
theorem track_recv_contract_instance :
    Track.recv (Gen.init 640 480 30) 90 (1 / 90000) =
      { data := npZeros 480 640, pts := 90, time_base := 1 / 90000 } ∧
    (∀ i j c, (Track.recv (Gen.init 640 480 30) 90 (1 / 90000)).data.pix i j c = 0) := by
  have h := (track_recv_contract (Gen.init 640 480 30) 90 (1 / 90000)).1 rfl
  exact ⟨h.1, h.2.1⟩

/-- One tick either keeps or negates each velocity component. -/
theorem tick_vel_cases (g : Gen) :
    ((Gen.tick g).vx = g.vx ∨ (Gen.tick g).vx = -g.vx) ∧
    ((Gen.tick g).vy = g.vy ∨ (Gen.tick g).vy = -g.vy) := by
  simp only [Gen.tick]
  constructor <;> split <;> simp

/-- C10: the tick update only negates velocity components, so every reachable
state of the default-constructed generator has velocity magnitudes 5 and 3,
and the per-tick displacement is exactly the current velocity, hence
(plus-minus 5, plus-minus 3). -/
theorem default_velocity_invariant (n : ℕ) :
    |(Gen.tick^[n] (Gen.init 640 480 30)).vx| = 5 ∧
    |(Gen.tick^[n] (Gen.init 640 480 30)).vy| = 3 ∧
    (Gen.tick^[n + 1] (Gen.init 640 480 30)).x -
      (Gen.tick^[n] (Gen.init 640 480 30)).x =
      (Gen.tick^[n] (Gen.init 640 480 30)).vx ∧
    (Gen.tick^[n + 1] (Gen.init 640 480 30)).y -
      (Gen.tick^[n] (Gen.init 640 480 30)).y =
      (Gen.tick^[n] (Gen.init 640 480 30)).vy := by
  have habs : ∀ k : ℕ, |(Gen.tick^[k] (Gen.init 640 480 30)).vx| = 5 ∧
      |(Gen.tick^[k] (Gen.init 640 480 30)).vy| = 3 := by
    intro k
    induction k with
    | zero => simp [Gen.init]
    | succ k ih =>
      rw [Function.iterate_succ_apply']
      obtain ⟨h1, h2⟩ := ih
      have hc := tick_vel_cases (Gen.tick^[k] (Gen.init 640 480 30))
      rcases hc.1 with h | h <;> rcases hc.2 with h3 | h3 <;>
        simp [h, h3, abs_neg, h1, h2]
  have hdisp : ∀ g : Gen, (Gen.tick g).x - g.x = g.vx ∧ (Gen.tick g).y - g.y = g.vy := by
    intro g
    simp [Gen.tick]
  refine ⟨(habs n).1, (habs n).2, ?_, ?_⟩ <;>
    rw [Function.iterate_succ_apply']
  · exact (hdisp _).1
  · exact (hdisp _).2

/-- C8: whenever a tick leaves a coordinate inside a boundary band the
corresponding velocity component is negated relative to before that tick;
and from the default initial state the position always stays inside
[0, width] and [0, height] outright (hence never outside by more than one
displacement). -/
theorem boundary_reflection :
    (∀ g : Gen,
      (((Gen.tick g).x ≤ g.radius ∨ g.width - g.radius ≤ (Gen.tick g).x) →
        (Gen.tick g).vx = -g.vx) ∧
      (((Gen.tick g).y ≤ g.radius ∨ g.height - g.radius ≤ (Gen.tick g).y) →
        (Gen.tick g).vy = -g.vy)) ∧
    (∀ n : ℕ,
      0 ≤ (Gen.tick^[n] (Gen.init 640 480 30)).x ∧
      (Gen.tick^[n] (Gen.init 640 480 30)).x ≤ 640 ∧
      0 ≤ (Gen.tick^[n] (Gen.init 640 480 30)).y ∧
      (Gen.tick^[n] (Gen.init 640 480 30)).y ≤ 480) := by
  constructor
  · intro g
    constructor
    · intro h
      rw [tick_x] at h
      rw [tick_vx, if_pos h]
    · intro h
      rw [tick_y] at h
      rw [tick_vy, if_pos h]
  · intro n
    obtain ⟨hw, hh, hr, hvx, hvy, hdx, hdy, hx1, hx2, hy1, hy2, hrest⟩ := Inv8.iterate n
    omega

/-- Witness for the C8 theorem: one tick before the right boundary, the tick
reaches the band and the horizontal velocity is negated. -/
theorem boundary_reflection_instance :
    g8w.width - g8w.radius ≤ (Gen.tick g8w).x ∧ (Gen.tick g8w).vx = -g8w.vx :=
  ⟨by decide, (boundary_reflection.1 g8w).1 (Or.inr (by decide))⟩

/-- C1: a coords datagram carrying numbers x and y, received while the
Periodic Signal Source is active with true position (gx, gy), makes the
handler emit exactly one error datagram (no exception, state unchanged),
whose `e` field carries the Euclidean distance between (gx, gy) and
(x, y). -/
theorem coords_error_datagram (parse : List ℕ → Option JVal)
    (s : SessionState) (d : List ℕ) (m : List (String × JVal)) (g : Gen)
    (qx qy : ℚ)
    (hm : parse d = some (JVal.jobj m))
    (ht : pyGet m "type" = some (JVal.jstr "coords"))
    (hx : pyGet m "x" = some (JVal.jnum qx))
    (hy : pyGet m "y" = some (JVal.jnum qy))
    (hg : s.generator = some g) :
    hstep parse s (H3Event.datagramReceived d) =
      ⟨s, [OutAct.sendDatagram (OutMsg.errorMsg
            (((Gen.get_position g).1 : ℚ) - qx)
            (((Gen.get_position g).2 : ℚ) - qy))], none⟩ ∧
    (OutMsg.errorMsg (((Gen.get_position g).1 : ℚ) - qx)
        (((Gen.get_position g).2 : ℚ) - qy)).errValue =
      Real.sqrt ((((Gen.get_position g).1 : ℝ) - (qx : ℝ)) ^ 2 +
                 (((Gen.get_position g).2 : ℝ) - (qy : ℝ)) ^ 2) := by
  constructor
  · simp [hstep, hm, ht, hx, hy, hg, strEq, asNum]
  · simp only [OutMsg.errValue]
    push_cast
    ring_nf

/-- Witness for the C1 theorem: true position (10, 10), reported (7, 6); the
handler emits exactly one error datagram and the emitted error value is
exactly 5. -/
theorem coords_error_datagram_instance :
    hstep parseDemo sGen (H3Event.datagramReceived coords76Bytes) =
      ⟨sGen, [OutAct.sendDatagram (OutMsg.errorMsg 3 4)], none⟩ ∧
    (OutMsg.errorMsg 3 4).errValue = 5 := by
  have h := coords_error_datagram parseDemo sGen coords76Bytes
      [("type", JVal.jstr "coords"), ("x", JVal.jnum 7), ("y", JVal.jnum 6)]
      genTen 7 6 rfl rfl rfl rfl rfl
  have e1 : ((Gen.get_position genTen).1 : ℚ) - 7 = 3 := by
    norm_num [Gen.get_position, genTen]
  have e2 : ((Gen.get_position genTen).2 : ℚ) - 6 = 4 := by
    norm_num [Gen.get_position, genTen]
  rw [e1, e2] at h
  constructor
  · exact h.1
  · show Real.sqrt (((3 : ℚ) : ℝ) ^ 2 + ((4 : ℚ) : ℝ) ^ 2) = 5
    rw [show (((3 : ℚ) : ℝ) ^ 2 + ((4 : ℚ) : ℝ) ^ 2) = 5 ^ 2 by norm_num]
    exact Real.sqrt_sq (by norm_num)

/-- C2: a connection-upgrade request constructs a session handler and is
answered 200 with the WebTransport draft header if and only if method,
protocol token and path match; on any mismatch a 404 response with the
stream ended is sent and no handler is constructed. -/
theorem handshake_gate (sid : ℕ) (hs : List (String × String)) :
    ((headersDictGet hs ":method" = some "CONNECT" ∧
      headersDictGet hs ":protocol" = some "webtransport" ∧
      headersDictGet hs ":path" = some "/webtransport") ↔
      ((handleHeadersReceived sid hs).1 = some (SessionHandler.init sid) ∧
       (handleHeadersReceived sid hs).2 =
         { headers := [(":status", "200"),
                       ("sec-webtransport-http3-draft", "draft02")],
           endStream := false })) ∧
    (¬ (headersDictGet hs ":method" = some "CONNECT" ∧
        headersDictGet hs ":protocol" = some "webtransport" ∧
        headersDictGet hs ":path" = some "/webtransport") →
      (handleHeadersReceived sid hs).1 = none ∧
      (handleHeadersReceived sid hs).2 =
        { headers := [(":status", "404")], endStream := true }) := by
  have h200 : toString (200 : ℕ) = "200" := rfl
  have h404 : toString (404 : ℕ) = "404" := rfl
  by_cases h : headersDictGet hs ":method" = some "CONNECT" ∧
      headersDictGet hs ":protocol" = some "webtransport" ∧
      headersDictGet hs ":path" = some "/webtransport"
  · obtain ⟨h1, h2, h3⟩ := h
    simp [handleHeadersReceived, send_response, h1, h2, h3, h200]
  · have hb : (headersDictGet hs ":method" == some "CONNECT" &&
        (headersDictGet hs ":protocol" == some "webtransport") &&
        (headersDictGet hs ":path" == some "/webtransport")) = false := by
      rw [Bool.eq_false_iff]
      intro hc
      simp only [Bool.and_eq_true, beq_iff_eq] at hc
      exact h ⟨hc.1.1, hc.1.2, hc.2⟩
    simp only [handleHeadersReceived, hb, if_false, send_response, h404,
      Bool.false_and]
    constructor
    · constructor
      · intro hcontra
        exact absurd hcontra h
      · intro hcontra
        simp at hcontra
    · intro _
      norm_num

/-- Witness for the C2 theorem: a matching request constructs the handler; a
request with the wrong method is rejected with 404. -/
theorem handshake_gate_instance :
    (handleHeadersReceived 0
        [(":method", "CONNECT"), (":protocol", "webtransport"),
         (":path", "/webtransport")]).1 = some (SessionHandler.init 0) ∧
    (handleHeadersReceived 7
        [(":method", "GET"), (":protocol", "webtransport"),
         (":path", "/webtransport")]).2 =
      { headers := [(":status", "404")], endStream := true } :=
  ⟨((handshake_gate 0 _).1.mp (by decide)).1,
   ((handshake_gate 7 _).2 (by decide)).2⟩

/-- C4 (amended): a payload on which JSON parsing fails is silently dropped
(no action, no exception, state unchanged apart from discarding a completed
stream's buffer); a payload parsing to a non-object JSON value (null, a
bool, a number, a string, an array) raises an AttributeError at
`msg.get("type")` that escapes, on the datagram path and on the stream path
alike; a parseable object missing a required field is silently dropped only
when the handler never reaches that field: a coords datagram missing x or y
is dropped silently when no source is active, but raises a TypeError that
escapes when a source is active; an ice-candidate datagram missing its
candidate field raises a KeyError that escapes; an offer stream message
missing its sdp field raises a KeyError that escapes; in every escaping case
nothing is sent and the state is otherwise unchanged. -/
theorem malformed_message_handling :
    (∀ parse s d, parse d = none →
      hstep parse s (H3Event.datagramReceived d) = ⟨s, [], none⟩) ∧
    (∀ parse s d v, parse d = some v → v.isObj = false →
      hstep parse s (H3Event.datagramReceived d) =
        ⟨s, [], some PyErr.attributeError⟩) ∧
    (∀ parse s d m, parse d = some (JVal.jobj m) →
      pyGet m "type" = some (JVal.jstr "coords") → s.generator = none →
      hstep parse s (H3Event.datagramReceived d) = ⟨s, [], none⟩) ∧
    (∀ parse s d m g, parse d = some (JVal.jobj m) →
      pyGet m "type" = some (JVal.jstr "coords") → s.generator = some g →
      pyGet m "x" = none →
      hstep parse s (H3Event.datagramReceived d) =
        ⟨s, [], some PyErr.typeError⟩) ∧
    (∀ parse s d m g qx, parse d = some (JVal.jobj m) →
      pyGet m "type" = some (JVal.jstr "coords") → s.generator = some g →
      pyGet m "x" = some (JVal.jnum qx) → pyGet m "y" = none →
      hstep parse s (H3Event.datagramReceived d) =
        ⟨s, [], some PyErr.typeError⟩) ∧
    (∀ parse s d m, parse d = some (JVal.jobj m) →
      pyGet m "type" = some (JVal.jstr "ice-candidate") →
      pyGet m "candidate" = none →
      hstep parse s (H3Event.datagramReceived d) =
        ⟨s, [], some (PyErr.keyError "candidate")⟩) ∧
    (∀ parse s sid b, parse (bufGet s.buffers sid ++ b) = none →
      hstep parse s (H3Event.wtStreamData sid b true) =
        ⟨{ s with buffers := bufDel s.buffers sid }, [], none⟩) ∧
    (∀ parse s sid b v, parse (bufGet s.buffers sid ++ b) = some v →
      v.isObj = false →
      hstep parse s (H3Event.wtStreamData sid b true) =
        ⟨{ s with buffers := bufDel s.buffers sid }, [],
         some PyErr.attributeError⟩) ∧
    (∀ parse s sid b m, parse (bufGet s.buffers sid ++ b) = some (JVal.jobj m) →
      pyGet m "type" = some (JVal.jstr "offer") → pyGet m "sdp" = none →
      hstep parse s (H3Event.wtStreamData sid b true) =
        ⟨{ s with buffers := bufDel s.buffers sid }, [],
         some (PyErr.keyError "sdp")⟩) := by
  refine ⟨?_, ?_, ?_, ?_, ?_, ?_, ?_, ?_, ?_⟩
  · intro parse s d hm
    simp [hstep, hm]
  · intro parse s d v hm hv
    cases v <;> simp_all [hstep, JVal.isObj]
  · intro parse s d m hm ht hg
    simp [hstep, hm, ht, hg, strEq]
  · intro parse s d m g hm ht hg hx
    simp [hstep, hm, ht, hg, hx, strEq, asNum]
  · intro parse s d m g qx hm ht hg hx hy
    simp [hstep, hm, ht, hg, hx, hy, strEq, asNum]
  · intro parse s d m hm ht hc
    simp [hstep, hm, ht, hc, strEq]
  · intro parse s sid b hm
    simp [hstep, endDispatch, hm]
  · intro parse s sid b v hm hv
    cases v <;> simp_all [hstep, endDispatch, JVal.isObj]
  · intro parse s sid b m hm ht hsdp
    simp [hstep, endDispatch, hm, ht, hsdp, strEq]

/-- C4 counterexample: an ice-candidate datagram missing its candidate field
is parseable, yet the handler raises a KeyError that escapes instead of
silently dropping the message. -/
theorem malformed_message_counterexample :
    hstep parseDemo sPlain (H3Event.datagramReceived iceNoCandBytes) =
      ⟨sPlain, [], some (PyErr.keyError "candidate")⟩ := rfl

/-- Witness for the C4 theorem: a coords datagram missing x, received while a
source is active, makes a TypeError escape; a datagram whose bytes are the
JSON text null parses to a non-object and makes an AttributeError escape. -/
theorem malformed_message_handling_instance :
    hstep parseDemo sGen (H3Event.datagramReceived coordsNoXBytes) =
      ⟨sGen, [], some PyErr.typeError⟩ ∧
    hstep parseDemo sPlain (H3Event.datagramReceived nullBytes) =
      ⟨sPlain, [], some PyErr.attributeError⟩ :=
  ⟨malformed_message_handling.2.2.2.1 parseDemo sGen coordsNoXBytes
    [("type", JVal.jstr "coords")] genTen rfl rfl rfl rfl,
   malformed_message_handling.2.1 parseDemo sPlain nullBytes JVal.jnull
    rfl rfl⟩

/-- Deleting a stream id leaves no buffer readable under that id. -/
theorem bufGet_bufDel (bs : List (ℕ × List ℕ)) (sid : ℕ) :
    bufGet (bufDel bs sid) sid = [] := by
  induction bs with
  | nil => rfl
  | cons p rest ih =>
    rcases p with ⟨k, v⟩
    by_cases h : k = sid
    · simpa [bufDel, h] using ih
    · simpa [bufDel, bufGet, List.find?, h] using ih

/-- C6 (amended): the partial buffer of a stream is removed by the stream-end
event regardless of the parse outcome and by a stream reset event; after a
reset no bytes received before the reset are ever parsed: a subsequent
stream-end event for the same identifier is processed against a fresh buffer
holding only the bytes it carries (and hence can still produce a message
from post-reset bytes alone). -/
theorem stream_buffer_lifecycle :
    (∀ parse s sid b,
      (hstep parse s (H3Event.wtStreamData sid b true)).state =
        { s with buffers := bufDel s.buffers sid }) ∧
    (∀ parse s sid, hstep parse s (H3Event.streamReset sid) =
        ⟨{ s with buffers := bufDel s.buffers sid }, [], none⟩) ∧
    (∀ parse s sid,
      bufGet (hstep parse s (H3Event.streamReset sid)).state.buffers sid = []) ∧
    (∀ parse s sid b,
      (hstep parse (hstep parse s (H3Event.streamReset sid)).state
          (H3Event.wtStreamData sid b true)).out = (endDispatch parse b).1 ∧
      (hstep parse (hstep parse s (H3Event.streamReset sid)).state
          (H3Event.wtStreamData sid b true)).err = (endDispatch parse b).2) := by
  refine ⟨?_, ?_, ?_, ?_⟩
  · intro parse s sid b
    simp [hstep]
  · intro parse s sid
    simp [hstep]
  · intro parse s sid
    simp [hstep, bufGet_bufDel]
  · intro parse s sid b
    constructor <;> simp [hstep, bufGet_bufDel]

/-- C6 counterexample: a stream accumulates bytes, is reset (the buffer,
which existed while the stream was in progress, is discarded), and a later
stream-end event for the same identifier whose own bytes form a complete
offer is still processed into a message. -/
theorem stream_buffer_lifecycle_counterexample :
    bufGet (hstep parseDemo sPlain
        (H3Event.wtStreamData 4 [123, 34] false)).state.buffers 4 = [123, 34] ∧
    (hstep parseDemo
      (hstep parseDemo
        (hstep parseDemo sPlain (H3Event.wtStreamData 4 [123, 34] false)).state
        (H3Event.streamReset 4)).state
      (H3Event.wtStreamData 4 offerXBytes true)).out =
      [OutAct.scheduleOffer (JVal.jstr "X")] :=
  ⟨rfl, rfl⟩

/-- With no chosen payload type every line is returned unchanged. -/
theorem rewriteLine_none (line : PyStr) : rewriteLine none line = line := by
  unfold rewriteLine
  split <;> rfl

/-- For a nonempty chosen payload type, the source rewriting of one line
agrees with the transformation as the claim states it. -/
theorem rewriteLine_eq_claim {c : PyStr} (hc : c ≠ []) (line : PyStr) :
    rewriteLine (some c) line = claimVideoLine c line := by
  unfold rewriteLine claimVideoLine
  by_cases hv : hasPfx mVideoPfx line = true
  · by_cases hm : c ∈ (splitOnChar ' ' line).drop 3
    · simp [hv, hm, hc]
    · simp [hv, hm]
  · simp [hv]

/-- Membership after a dict assignment: either an old binding or the new
key. -/
theorem dictSet_mem {acc : List (PyStr × PyStr)} {k v : PyStr} {kv : PyStr × PyStr}
    (h : kv ∈ dictSet acc k v) : kv ∈ acc ∨ kv.1 = k := by
  unfold dictSet at h
  split at h
  · rw [List.mem_map] at h
    obtain ⟨p, hp, hpe⟩ := h
    by_cases hk : (p.1 == k) = true
    · rw [if_pos hk] at hpe
      right
      rw [← hpe]
    · rw [if_neg hk] at hpe
      left
      rw [← hpe]
      exact hp
  · rw [List.mem_append, List.mem_singleton] at h
    rcases h with h | h
    · left; exact h
    · right; rw [h]

/-- A split result of length at least two starts with two fields. -/
theorem two_le_split (line : PyStr)
    (hlen : 2 ≤ (splitOnChar ' ' (line.drop 9)).length) :
    ∃ a b t, splitOnChar ' ' (line.drop 9) = a :: b :: t := by
  rcases hl : splitOnChar ' ' (line.drop 9) with _ | ⟨a, tl⟩
  · rw [hl] at hlen; simp at hlen
  · rcases tl with _ | ⟨b, t⟩
    · rw [hl] at hlen; simp at hlen
    · exact ⟨a, b, t, rfl⟩

/-- On well-formed lines the rtpmap scan never raises. -/
theorem rtpmapScan_ok_of_wf (lines : List PyStr) :
    ∀ acc, linesWF lines = true → ∃ d, rtpmapScan acc lines = Except.ok d := by
  induction lines with
  | nil =>
    intro acc _
    exact ⟨acc, rfl⟩
  | cons line rest ih =>
    intro acc hwf
    rw [linesWF, List.all_cons, Bool.and_eq_true] at hwf
    obtain ⟨hline, hrest⟩ := hwf
    by_cases hp : hasPfx rtpmapPfx line = true
    · rw [rtpmapWFb, hp] at hline
      simp only [Bool.not_true, Bool.false_or, Bool.and_eq_true,
        decide_eq_true_eq] at hline
      obtain ⟨a, b, t, hsplit⟩ := two_le_split line hline.1
      simp only [rtpmapScan, hp, if_true, hsplit, List.getElem?_cons_succ,
        List.getElem?_cons_zero]
      exact ih _ hrest
    · simp only [rtpmapScan, hp, if_false, Bool.false_eq_true]
      exact ih acc hrest

/-- On well-formed lines all payload types collected by the scan are
nonempty. -/
theorem rtpmapScan_keys_ne (lines : List PyStr) :
    ∀ acc d, (∀ kv ∈ acc, kv.1 ≠ ([] : PyStr)) → linesWF lines = true →
      rtpmapScan acc lines = Except.ok d → ∀ kv ∈ d, kv.1 ≠ [] := by
  induction lines with
  | nil =>
    intro acc d hacc _ hok
    simp only [rtpmapScan] at hok
    injection hok with h
    rw [← h]
    exact hacc
  | cons line rest ih =>
    intro acc d hacc hwf hok
    rw [linesWF, List.all_cons, Bool.and_eq_true] at hwf
    obtain ⟨hline, hrest⟩ := hwf
    by_cases hp : hasPfx rtpmapPfx line = true
    · rw [rtpmapWFb, hp] at hline
      simp only [Bool.not_true, Bool.false_or, Bool.and_eq_true,
        decide_eq_true_eq] at hline
      obtain ⟨hlen, hne⟩ := hline
      obtain ⟨a, b, t, hsplit⟩ := two_le_split line hlen
      simp only [rtpmapScan, hp, if_true, hsplit, List.getElem?_cons_succ,
        List.getElem?_cons_zero] at hok
      refine ih _ d ?_ hrest hok
      intro kv hkv
      rcases dictSet_mem hkv with h | h
      · exact hacc kv h
      · rw [h]
        intro hnil
        rw [List.headD_cons] at hnil
        rw [hsplit, List.headD_cons, hnil] at hne
        simp at hne
    · simp only [rtpmapScan, hp, if_false, Bool.false_eq_true] at hok
      exact ih acc d hacc hrest hok

/-- The chosen h264 payload type is a key of the scanned map. -/
theorem head_h264pts_mem {d : List (PyStr × PyStr)} {c : PyStr}
    (h : (h264pts d).head? = some c) : ∃ kv ∈ d, kv.1 = c := by
  rcases hl : h264pts d with _ | ⟨a, t⟩
  · rw [hl] at h; cases h
  · rw [hl] at h
    injection h with h
    have ha : a ∈ h264pts d := by
      rw [hl]
      exact List.mem_cons_self a t
    rw [h264pts, List.mem_map] at ha
    obtain ⟨kv, hkv, hkva⟩ := ha
    rw [List.mem_filter] at hkv
    exact ⟨kv, hkv.1, by rw [hkva, h]⟩

/-- C5 (amended): for every SDP whose rtpmap lines are well formed (payload
type and codec fields present, payload type nonempty) the scan succeeds; if
the resulting mapping carries no h264 codec the SDP is returned unchanged,
and if a payload type is chosen for h264 the result moves it to the front of
the payload list on each m=video line containing it, preserving the relative
order of the other payload types and leaving every other line
byte-identical. -/
theorem prefer_h264_spec (lines : List PyStr) (hwf : linesWF lines = true) :
    (∃ d, rtpmapScan [] lines = Except.ok d) ∧
    (∀ d, rtpmapScan [] lines = Except.ok d →
      (((∀ kv ∈ d, kv.2 ≠ h264Str) → prefer_h264 lines = Except.ok lines) ∧
       (∀ c, (h264pts d).head? = some c →
         prefer_h264 lines = Except.ok (lines.map (claimVideoLine c))))) := by
  refine ⟨rtpmapScan_ok_of_wf lines [] hwf, ?_⟩
  intro d hd
  constructor
  · intro hno
    have hfil : d.filter (fun kv => kv.2 == h264Str) = [] := by
      rw [List.filter_eq_nil_iff]
      intro kv hkv
      simpa using hno kv hkv
    unfold prefer_h264
    rw [hd]
    show Except.ok (lines.map (rewriteLine (h264pts d).head?)) = Except.ok lines
    have hnil : h264pts d = [] := by rw [h264pts, hfil]; rfl
    have hmap : lines.map (rewriteLine none) = lines := by
      have hfun : rewriteLine none = fun line : PyStr => line :=
        funext rewriteLine_none
      rw [hfun, List.map_id']
    rw [hnil]
    simp only [List.head?_nil, hmap]
  · intro c hc
    have hkeys := rtpmapScan_keys_ne lines [] d (by simp) hwf hd
    obtain ⟨kv, hkv, hkc⟩ := head_h264pts_mem hc
    have hcne : c ≠ [] := hkc ▸ hkeys kv hkv
    unfold prefer_h264
    rw [hd]
    show Except.ok (lines.map (rewriteLine (h264pts d).head?)) =
      Except.ok (lines.map (claimVideoLine c))
    rw [hc]
    have hfun : rewriteLine (some c) = claimVideoLine c :=
      funext (rewriteLine_eq_claim hcne)
    rw [hfun]

/-- C5 counterexample: an SDP with a malformed rtpmap line and no h264
mapping makes the transformation raise IndexError instead of returning the
SDP unchanged, refuting the claim over every SDP string. -/
theorem prefer_h264_counterexample :
    prefer_h264 sdpBad = Except.error PyErr.indexError ∧
    prefer_h264 sdpBad ≠ Except.ok sdpBad :=
  ⟨rfl, fun h =>
    Except.noConfusion
      ((rfl : Except.error PyErr.indexError = prefer_h264 sdpBad).trans h)⟩

/-- Witness for the C5 theorem at the example of the spec: payloads 96 97
with 97 mapped to H264 become 97 96 and all other lines are unchanged. -/
theorem prefer_h264_spec_instance :
    linesWF sdpEx = true ∧ prefer_h264 sdpEx = Except.ok sdpExOut := by
  have h := ((prefer_h264_spec sdpEx (by decide)).2
      [("96".toList, "vp8".toList), ("97".toList, "h264".toList)] rfl).2
      "97".toList rfl
  exact ⟨by decide, h.trans rfl⟩
